import Mathlib

/-!
Shallow embedding of the screen-color synchronization engine of
`lifx_control_panel/utilities/color_thread.py`.

The embedding covers:
* the HSBK color data model and the RGB→HSBK conversion used by the samplers;
* the two sampling strategies `avg_screen_color` and `dominant_screen_color`
  (the screen-capture / image-downscale step is abstracted as the pixel data
  they receive, since capture is an external effect);
* the iteration body of `ColorThreadRunner.match_color` as a step function on
  an explicit loop state, driven by an environment that supplies the sampled
  colors, the per-iteration configuration reads, and a fault schedule for the
  exceptions an iteration can raise;
* the thread lifecycle of `ColorThreadRunner.start` / `stop` over an explicit
  thread-phase state machine.
-/

/-- Device color: hue, saturation, brightness, kelvin.  The Python code works
with 4-element lists indexed 0..3; we use a structure with one field per
slot. -/
structure HSBK where
  hue : Int
  sat : Int
  bri : Int
  kel : Int
deriving DecidableEq

/-- An 8-bit RGB pixel (components 0..255 in the source; we use ℕ). -/
structure RGB where
  r : Nat
  g : Nat
  b : Nat
deriving DecidableEq

/-- Python `int()` applied to a rational: truncation toward zero. -/
def pyInt (q : ℚ) : Int :=
  if 0 ≤ q then ⌊q⌋ else ⌈q⌉

/-- Modelled from the spec: the samplers convert RGB to device color-space via
`lifxlan.utils.RGBtoHSBK`, which is an external dependency not part of this
repository.  The spec describes it as an RGB→HSV-style conversion that carries
the `temperature` argument forward unchanged into the kelvin slot; this is the
standard max/min hue-sector formula scaled to 0..65535, returning
`temperature` as the fourth component. -/
def RGBtoHSBK (c : RGB) (temperature : Int) : HSBK :=
  let cmax : ℚ := max (c.r : ℚ) (max (c.g : ℚ) (c.b : ℚ))
  let cmin : ℚ := min (c.r : ℚ) (min (c.g : ℚ) (c.b : ℚ))
  let cdel : ℚ := cmax - cmin
  let brightness : Int := pyInt (cmax / 255 * 65535)
  if cdel ≠ 0 then
    let saturation : Int := pyInt (cdel / cmax * 65535)
    let redc : ℚ := (cmax - (c.r : ℚ)) / cdel
    let greenc : ℚ := (cmax - (c.g : ℚ)) / cdel
    let bluec : ℚ := (cmax - (c.b : ℚ)) / cdel
    let hue0 : ℚ :=
      if (c.r : ℚ) = cmax then bluec - greenc
      else if (c.g : ℚ) = cmax then 2 + redc - bluec
      else 4 + greenc - redc
    let hue1 : ℚ := hue0 / 6
    let hue2 : ℚ := if hue1 < 0 then hue1 + 1 else hue1
    ⟨pyInt (hue2 * 65535), saturation, brightness, temperature⟩
  else
    ⟨0, 0, brightness, temperature⟩

/-- The quantization `a0*s0*s1 + a1*s0 + a2` with `s0 = s1 = 256` from
`dominant_screen_color`: encodes an RGB triple as `r*65536 + g*256 + b`. -/
def encodeRGB (p : RGB) : Nat :=
  p.r * 65536 + p.g * 256 + p.b

/-- `np.unravel_index(v, (256, 256, 256))`: decode a bucket back to RGB. -/
def decodeRGB (v : Nat) : RGB :=
  ⟨v / 65536, v / 256 % 256, v % 256⟩

/-- `np.bincount(l).argmax()`: the smallest value among those occurring with
maximal multiplicity in `l` (numpy's `argmax` returns the first maximal index
of the histogram).  `none` on an empty list, where numpy raises. -/
def bincountArgmax (l : List Nat) : Option Nat :=
  match l with
  | [] => none
  | _ :: _ =>
    let m := l.foldl max 0
    some ((List.range (m + 1)).foldl
      (fun best v => if l.count v > l.count best then v else best) 0)

/-- `avg_screen_color`: the capture and the 1×1 Hamming downscale are external
(mss / PIL); `avgPixel` is the single pixel they produce.  The function then
converts it with `RGBtoHSBK`, carrying `initial_color[3]` as temperature. -/
def avg_screen_color (avgPixel : RGB) (initial_color : HSBK) : HSBK :=
  RGBtoHSBK avgPixel initial_color.kel

/-- `dominant_screen_color`: the capture and 4× downscale are external;
`pixels` is the downscaled pixel data.  Each pixel is quantized into a single
bucket, the most frequent bucket is taken (histogram mode, first index on
ties), decoded back to RGB, and converted with the same temperature
carry-forward as the average strategy. -/
def dominant_screen_color (pixels : List RGB) (initial_color : HSBK) : Option HSBK :=
  (bincountArgmax (pixels.map encodeRGB)).map
    (fun v => RGBtoHSBK (decodeRGB v) initial_color.kel)

/-- Exceptions an iteration of `match_color` can raise: `OSError` (the only
type the `except` clause catches) and any other exception type. -/
inductive Exc
  | osError
  | otherError
deriving DecidableEq

/-- One invocation of `bulb.set_color(color, duration=..., rapid=...)`;
`ok` records whether the call returned normally or raised. -/
structure PushCall where
  color : HSBK
  duration : ℚ
  rapid : Bool
  ok : Bool
deriving DecidableEq

/-- Status of the background worker running `match_color`. -/
inductive Status
  | running
  | halted
  | crashed (e : Exc)
deriving DecidableEq

/-- State of one run of `match_color`: the `prev_color` baseline, the stop
event of the thread executing the loop, the log of `set_color` invocations,
and whether the worker is still running, exited its loop, or died from an
uncaught exception. -/
structure LoopState where
  prev_color : HSBK
  stopFlag : Bool
  calls : List PushCall
  status : Status
deriving DecidableEq

/-- Environment driving a run of `match_color`.  `color_function` gives the
color returned by `self.color_function(initial_color=prev, ...)` at iteration
`i`; `sampleExc`/`pushExc` are the fault schedule (an exception raised while
sampling / inside `set_color`); `duration` and `brightness_offset` are the
values the configuration file holds when iteration `i` reads them (the code
re-reads both every iteration); `continuousCfg` is the value the configuration
source holds for the continuous flag at iteration `i`; `continuous` is the
snapshot `self.continuous` taken at construction, which is what the code
actually uses. -/
structure Env where
  color_function : Nat → HSBK → HSBK
  sampleExc : Nat → Option Exc
  pushExc : Nat → Option Exc
  duration : Nat → ℚ
  brightness_offset : Nat → Int
  continuousCfg : Nat → Bool
  continuous : Bool

/-- One iteration of the `while not self.thread.stopped()` loop of
`ColorThreadRunner.match_color`, at iteration index `i`:

* if the worker already exited or crashed, nothing happens;
* if the stop event is set, the loop condition fails and the worker exits;
* otherwise the body runs: sample a color (an `OSError` is caught and the loop
  continues, any other exception propagates and kills the worker), clamp the
  brightness with the freshly read offset, call `set_color` with the freshly
  read duration times 1000 and `rapid=self.continuous` (again: `OSError`
  caught — note the `continue` skips the one-shot stop check — any other
  exception fatal), on success update `prev_color` and, when not continuous,
  call `self.stop()`. -/
def match_color_iter (env : Env) (i : Nat) (s : LoopState) : LoopState :=
  match s.status with
  | Status.running =>
    if s.stopFlag then { s with status := Status.halted }
    else
      match env.sampleExc i with
      | some Exc.osError => s
      | some Exc.otherError => { s with status := Status.crashed Exc.otherError }
      | none =>
        let c0 := env.color_function i s.prev_color
        let c := { c0 with bri := min (c0.bri + env.brightness_offset i) 65535 }
        match env.pushExc i with
        | some Exc.osError =>
          { s with calls := s.calls ++ [⟨c, env.duration i * 1000, env.continuous, false⟩] }
        | some Exc.otherError =>
          { s with calls := s.calls ++ [⟨c, env.duration i * 1000, env.continuous, false⟩],
                   status := Status.crashed Exc.otherError }
        | none =>
          let s1 := { s with
            calls := s.calls ++ [⟨c, env.duration i * 1000, env.continuous, true⟩],
            prev_color := c }
          if env.continuous then s1 else { s1 with stopFlag := true }
  | _ => s

/-- The state after `n` iteration steps of `match_color`, starting from the
baseline `init` fetched from the parent frame, an unset stop event and an
empty call log. -/
def match_color_run (env : Env) (init : HSBK) : Nat → LoopState
  | 0 => ⟨init, false, [], Status.running⟩
  | n + 1 => match_color_iter env n (match_color_run env init n)

/-- Modelled from the spec: a variant of the iteration in which the
`continuous` flag is also read fresh from the configuration source every
iteration ("All three LoopConfig values … are read fresh from the
configuration source on every iteration"), for comparison with the code's
snapshot behavior.  Identical to `match_color_iter` except every use of the
snapshot `env.continuous` becomes `env.continuousCfg i`. -/
def match_color_iter_specCfg (env : Env) (i : Nat) (s : LoopState) : LoopState :=
  match s.status with
  | Status.running =>
    if s.stopFlag then { s with status := Status.halted }
    else
      match env.sampleExc i with
      | some Exc.osError => s
      | some Exc.otherError => { s with status := Status.crashed Exc.otherError }
      | none =>
        let c0 := env.color_function i s.prev_color
        let c := { c0 with bri := min (c0.bri + env.brightness_offset i) 65535 }
        match env.pushExc i with
        | some Exc.osError =>
          { s with calls := s.calls ++ [⟨c, env.duration i * 1000, env.continuousCfg i, false⟩] }
        | some Exc.otherError =>
          { s with calls := s.calls ++ [⟨c, env.duration i * 1000, env.continuousCfg i, false⟩],
                   status := Status.crashed Exc.otherError }
        | none =>
          let s1 := { s with
            calls := s.calls ++ [⟨c, env.duration i * 1000, env.continuousCfg i, true⟩],
            prev_color := c }
          if env.continuousCfg i then s1 else { s1 with stopFlag := true }
  | _ => s

/-- Run of the spec-side fresh-continuous variant. -/
def match_color_run_specCfg (env : Env) (init : HSBK) : Nat → LoopState
  | 0 => ⟨init, false, [], Status.running⟩
  | n + 1 => match_color_iter_specCfg env n (match_color_run_specCfg env init n)

/-- Lifecycle phase of a Python `threading.Thread`: created but not started,
started and still executing its target, or finished.  `start()` raises
`RuntimeError` in both the `running` and the `finished` phase ("threads can
only be started once"). -/
inductive ThreadPhase
  | unstarted
  | running
  | finished
deriving DecidableEq

/-- The `ColorThread` class: a thread together with its `_stop` event. -/
structure ColorThread where
  phase : ThreadPhase
  stopEvent : Bool
deriving DecidableEq

/-- `ColorThread.stopped`: `self._stop.isSet()`. -/
def ColorThread.stopped (t : ColorThread) : Bool :=
  t.stopEvent

/-- A freshly constructed `ColorThread`: not yet started, event clear. -/
def ColorThread.new : ColorThread :=
  ⟨ThreadPhase.unstarted, false⟩

/-- The lifecycle-relevant state of a `ColorThreadRunner`: the thread object
currently held in `self.thread`, and a count of how many background workers
have been spawned (successful `thread.start()` calls) so far. -/
structure ColorThreadRunner where
  thread : ColorThread
  spawned : Nat
deriving DecidableEq

/-- `ColorThreadRunner.start`: if `self.thread.stopped()` the thread object is
replaced by a fresh one; then `self.thread.start()` is attempted — it spawns a
new worker when the thread is unstarted, and raises `RuntimeError` (caught and
logged, a no-op) when the thread was already started. -/
def ColorThreadRunner.start (r : ColorThreadRunner) : ColorThreadRunner :=
  let t := if r.thread.stopped then ColorThread.new else r.thread
  match t.phase with
  | ThreadPhase.unstarted =>
    ⟨{ t with phase := ThreadPhase.running }, r.spawned + 1⟩
  | _ => { r with thread := t }

/-- `ColorThreadRunner.stop`: sets the stop event of the current thread. -/
def ColorThreadRunner.stop (r : ColorThreadRunner) : ColorThreadRunner :=
  { r with thread := { r.thread with stopEvent := true } }

/-- A fixed sampled color used by the concrete test environments. -/
def sampleColor : HSBK :=
  ⟨100, 200, 300, 3500⟩

/-- Base test environment: the sampler always returns `sampleColor`, no
exceptions, duration 2 seconds, offset 10, continuous mode. -/
def baseEnv : Env where
  color_function := fun _ _ => sampleColor
  sampleExc := fun _ => none
  pushExc := fun _ => none
  duration := fun _ => 2
  brightness_offset := fun _ => 10
  continuousCfg := fun _ => true
  continuous := true

/-- Environment for the C1 counterexample: the sampler raises a non-`OSError`
exception on the very first iteration. -/
def envC1 : Env :=
  { baseEnv with sampleExc := fun _ => some Exc.otherError }

/-- Environment for the C1 amended-claim witness: every iteration raises an
`OSError` while sampling. -/
def envC1w : Env :=
  { baseEnv with sampleExc := fun _ => some Exc.osError }

/-- Environment for C3/C10: one-shot mode (`continuous=False`). -/
def envOneShot : Env :=
  { baseEnv with continuous := false, continuousCfg := fun _ => false }

/-- Environment for the C10 and C4 scenarios: `set_color` raises `OSError`
on iteration 0 (for C10) or on iteration 1 (for C4) and succeeds afterwards. -/
def envC10 : Env :=
  { envOneShot with pushExc := fun i => if i = 0 then some Exc.osError else none }

/-- Environment for the C4 witness: continuous mode, the push of iteration 1
fails with `OSError`, every other push succeeds. -/
def envC4 : Env :=
  { baseEnv with pushExc := fun i => if i = 1 then some Exc.osError else none }

/-- Environment for the C6 counterexample: the configuration's continuous
flag is edited from true to false between iteration 0 and iteration 1, while
the runner was constructed with the snapshot value true. -/
def envC6 : Env :=
  { baseEnv with continuousCfg := fun i => i == 0 }

/-- Environment for the C9 scenario: brightness offset −400 exceeds the
sampled brightness 300 in magnitude, so the clamped brightness is negative. -/
def envC9 : Env :=
  { baseEnv with brightness_offset := fun _ => -400 }

/-! ### Helper lemmas -/

/-- The RGB→HSBK conversion returns its temperature argument unchanged as the
kelvin component, on every branch. -/
theorem RGBtoHSBK_kel (c : RGB) (t : Int) : (RGBtoHSBK c t).kel = t := by
  simp only [RGBtoHSBK]
  split <;> rfl

/-- A worker that is not in the `running` status is unaffected by an
iteration step. -/
theorem match_color_iter_not_running (env : Env) (i : Nat) (s : LoopState)
    (h : s.status ≠ Status.running) : match_color_iter env i s = s := by
  unfold match_color_iter
  match hst : s.status with
  | Status.running => exact absurd hst h
  | Status.halted => rfl
  | Status.crashed e => rfl

/-- A running worker whose stop event is set exits the loop: the state is
unchanged except that the status becomes `halted`. -/
theorem match_color_iter_stop_observed (env : Env) (i : Nat) (s : LoopState)
    (h1 : s.status = Status.running) (h2 : s.stopFlag = true) :
    match_color_iter env i s = { s with status := Status.halted } := by
  unfold match_color_iter
  rw [h1]
  simp [h2]

/-- Once the stop event is set, an iteration step changes neither the call
log, nor `prev_color`, nor the stop event. -/
theorem match_color_iter_after_stop (env : Env) (i : Nat) (s : LoopState)
    (h : s.stopFlag = true) :
    (match_color_iter env i s).stopFlag = true ∧
    (match_color_iter env i s).calls = s.calls ∧
    (match_color_iter env i s).prev_color = s.prev_color := by
  by_cases hst : s.status = Status.running
  · rw [match_color_iter_stop_observed env i s hst h]
    exact ⟨h, rfl, rfl⟩
  · rw [match_color_iter_not_running env i s hst]
    exact ⟨h, rfl, rfl⟩

/-- Once the stop event is set and the worker has not crashed, the next
iteration step leaves the worker in the `halted` status. -/
theorem match_color_iter_halted (env : Env) (i : Nat) (s : LoopState)
    (h1 : s.stopFlag = true)
    (h2 : s.status = Status.running ∨ s.status = Status.halted) :
    (match_color_iter env i s).status = Status.halted := by
  rcases h2 with h2 | h2
  · rw [match_color_iter_stop_observed env i s h2 h1]
  · rw [match_color_iter_not_running env i s (by rw [h2]; intro hc; cases hc)]
    exact h2

/-- A fully successful iteration: sample succeeds, push succeeds.  The state
gains exactly one successful `set_color` call carrying the clamped color, the
freshly read duration times 1000, and the construction-time continuous flag;
`prev_color` becomes the pushed color; the stop event is set exactly when the
runner is not continuous. -/
theorem match_color_iter_push (env : Env) (i : Nat) (s : LoopState)
    (h1 : s.status = Status.running) (h2 : s.stopFlag = false)
    (h3 : env.sampleExc i = none) (h4 : env.pushExc i = none) :
    match_color_iter env i s =
      { prev_color :=
          { env.color_function i s.prev_color with
            bri := min ((env.color_function i s.prev_color).bri + env.brightness_offset i) 65535 },
        stopFlag := !env.continuous,
        calls := s.calls ++
          [⟨{ env.color_function i s.prev_color with
              bri := min ((env.color_function i s.prev_color).bri + env.brightness_offset i) 65535 },
            env.duration i * 1000, env.continuous, true⟩],
        status := Status.running } := by
  unfold match_color_iter
  rw [h1]
  simp only [h2, Bool.false_eq_true, if_false, h3, h4]
  cases hc : env.continuous <;> simp [hc, h1]

/-- An iteration whose push raises `OSError`: the failed call is logged in the
call trace, but `prev_color`, the stop event and the status are untouched
(the `continue` skips the one-shot stop check). -/
theorem match_color_iter_oserror_push (env : Env) (i : Nat) (s : LoopState)
    (h1 : s.status = Status.running) (h2 : s.stopFlag = false)
    (h3 : env.sampleExc i = none) (h4 : env.pushExc i = some Exc.osError) :
    match_color_iter env i s =
      { s with calls := s.calls ++
          [⟨{ env.color_function i s.prev_color with
              bri := min ((env.color_function i s.prev_color).bri + env.brightness_offset i) 65535 },
            env.duration i * 1000, env.continuous, false⟩] } := by
  unfold match_color_iter
  rw [h1]
  simp [h2, h3, h4]

/-- If neither fault of iteration `i` is a non-`OSError` exception, the step
cannot move a non-crashed worker into a crashed status. -/
theorem match_color_iter_no_crash (env : Env) (i : Nat) (s : LoopState)
    (hs : env.sampleExc i ≠ some Exc.otherError)
    (hp : env.pushExc i ≠ some Exc.otherError)
    (h : ∀ e, s.status ≠ Status.crashed e) (e : Exc) :
    (match_color_iter env i s).status ≠ Status.crashed e := by
  by_cases hst : s.status = Status.running
  · by_cases hf : s.stopFlag
    · rw [match_color_iter_stop_observed env i s hst hf]
      simp
    · simp only [Bool.not_eq_true] at hf
      match he : env.sampleExc i with
      | some Exc.otherError => exact absurd he hs
      | some Exc.osError =>
        unfold match_color_iter
        rw [hst]
        simp [hf, he, hst]
      | none =>
        match hpe : env.pushExc i with
        | some Exc.otherError => exact absurd hpe hp
        | some Exc.osError =>
          rw [match_color_iter_oserror_push env i s hst hf he hpe]
          simp [hst]
        | none =>
          rw [match_color_iter_push env i s hst hf he hpe]
          simp
  · rw [match_color_iter_not_running env i s hst]
    exact h e

/-! ### Claim theorems -/

/-- C1 (counterexample): the claim that any exception raised inside an
iteration is caught fails on the code.  The `except` clause catches only
`OSError`; here the sampler raises a non-`OSError` exception on the first
iteration and the worker terminates (status `crashed`), having pushed
nothing, and stays dead for all later steps. -/
theorem c1_uncaught_exception_kills_worker :
    envC1.sampleExc 0 = some Exc.otherError ∧
    (match_color_run envC1 sampleColor 1).status = Status.crashed Exc.otherError ∧
    (match_color_run envC1 sampleColor 5).status = Status.crashed Exc.otherError ∧
    (match_color_run envC1 sampleColor 5).calls = [] :=
  ⟨rfl, by decide, by decide, by decide⟩

/-- C1 (amended): only `OSError` is caught by the iteration body.  As long as
every exception an iteration raises (in sampling or in the device push) is an
`OSError`, the worker never terminates because of it: after any number of
iterations the status is never `crashed`. -/
theorem c1_only_oserror_is_caught (env : Env) (init : HSBK)
    (hs : ∀ i, env.sampleExc i ≠ some Exc.otherError)
    (hp : ∀ i, env.pushExc i ≠ some Exc.otherError) :
    ∀ n e, (match_color_run env init n).status ≠ Status.crashed e := by
  intro n
  induction n with
  | zero => intro e; simp [match_color_run]
  | succ n ih => exact fun e => match_color_iter_no_crash env n _ (hs n) (hp n) ih e

/-- Witness for C1 (amended): with an `OSError` raised while sampling on every
iteration, the worker is still not crashed after three iterations. -/
theorem c1_only_oserror_is_caught_witness :
    (match_color_run envC1w sampleColor 3).status ≠ Status.crashed Exc.osError :=
  c1_only_oserror_is_caught envC1w sampleColor
    (fun i => by simp [envC1w, baseEnv]) (fun i => by simp [envC1w, baseEnv]) 3 Exc.osError

/-- C2 (counterexample): `start()` in the StopRequested state (worker still
running, stop event set) is not a no-op: `self.thread.stopped()` is true, so
the thread object is replaced by a fresh one and started, spawning a second
background worker. -/
theorem c2_start_during_stoprequested_spawns :
    (⟨⟨ThreadPhase.running, true⟩, 1⟩ : ColorThreadRunner).thread.phase = ThreadPhase.running ∧
    (⟨⟨ThreadPhase.running, true⟩, 1⟩ : ColorThreadRunner).thread.stopEvent = true ∧
    (ColorThreadRunner.start ⟨⟨ThreadPhase.running, true⟩, 1⟩).spawned = 2 := by
  decide

/-- C2 (amended): `start()` while Running (worker alive, stop event clear) is
a no-op — the `RuntimeError` from restarting a live thread is caught and
logged, no new worker spawns.  From Idle after a stop (worker exited, stop
event set) `start()` spawns exactly one fresh worker, and an immediately
repeated `start()` changes nothing, so a double-start yields exactly one new
worker.  But `start()` during StopRequested also spawns (see the
counterexample), so the no-op guarantee holds only for the Running state. -/
theorem c2_start_noop_only_when_running (r : ColorThreadRunner) :
    (r.thread.phase = ThreadPhase.running → r.thread.stopEvent = false →
      ColorThreadRunner.start r = r) ∧
    (r.thread.phase = ThreadPhase.finished → r.thread.stopEvent = true →
      (ColorThreadRunner.start r).spawned = r.spawned + 1 ∧
      ColorThreadRunner.start (ColorThreadRunner.start r) = ColorThreadRunner.start r) := by
  constructor
  · intro h1 h2
    unfold ColorThreadRunner.start
    simp [ColorThread.stopped, h1, h2]
  · intro h1 h2
    unfold ColorThreadRunner.start
    simp [ColorThread.stopped, h1, h2, ColorThread.new]

/-- Witness for C2 (amended): a concrete no-op start on a Running runner and a
concrete single-spawn double-start from Idle. -/
theorem c2_start_noop_only_when_running_witness :
    ColorThreadRunner.start ⟨⟨ThreadPhase.running, false⟩, 5⟩ =
      (⟨⟨ThreadPhase.running, false⟩, 5⟩ : ColorThreadRunner) ∧
    (ColorThreadRunner.start ⟨⟨ThreadPhase.finished, true⟩, 5⟩).spawned = 6 ∧
    ColorThreadRunner.start (ColorThreadRunner.start ⟨⟨ThreadPhase.finished, true⟩, 5⟩) =
      ColorThreadRunner.start ⟨⟨ThreadPhase.finished, true⟩, 5⟩ :=
  ⟨(c2_start_noop_only_when_running ⟨⟨ThreadPhase.running, false⟩, 5⟩).1 rfl rfl,
   ((c2_start_noop_only_when_running ⟨⟨ThreadPhase.finished, true⟩, 5⟩).2 rfl rfl).1,
   ((c2_start_noop_only_when_running ⟨⟨ThreadPhase.finished, true⟩, 5⟩).2 rfl rfl).2⟩

/-- C4: if the push of iteration `k` raises an `OSError` and iteration `k+1`
succeeds, the loop does not terminate, and `prev_color` entering iteration
`k+1` is exactly its value after iteration `k-1` (the failed iteration left
it unchanged); the failed attempt is still one `set_color` invocation, and
iteration `k+1` performs its push. -/
theorem c4_transient_error_keeps_baseline (env : Env) (init : HSBK) (k : Nat)
    (hs : env.sampleExc k = none) (hp : env.pushExc k = some Exc.osError)
    (hs1 : env.sampleExc (k + 1) = none) (hp1 : env.pushExc (k + 1) = none)
    (hst : (match_color_run env init k).status = Status.running)
    (hfl : (match_color_run env init k).stopFlag = false) :
    (match_color_run env init (k + 1)).prev_color = (match_color_run env init k).prev_color ∧
    (match_color_run env init (k + 1)).status = Status.running ∧
    (match_color_run env init (k + 1)).calls.length = (match_color_run env init k).calls.length + 1 ∧
    (match_color_run env init (k + 2)).calls.length = (match_color_run env init (k + 1)).calls.length + 1 ∧
    (match_color_run env init (k + 2)).status = Status.running := by
  have hstep1 : match_color_run env init (k + 1) =
      match_color_iter env k (match_color_run env init k) := rfl
  have hstep2 : match_color_run env init (k + 2) =
      match_color_iter env (k + 1) (match_color_run env init (k + 1)) := rfl
  rw [hstep2, hstep1, match_color_iter_oserror_push env k _ hst hfl hs hp,
    match_color_iter_push env (k + 1) _ (by simpa using hst) (by simpa using hfl) hs1 hp1]
  refine ⟨rfl, hst, by simp, by simp, rfl⟩

/-- Witness for C4: with a push `OSError` exactly at iteration 1, the baseline
is unchanged across the failed iteration and the worker keeps running. -/
theorem c4_transient_error_keeps_baseline_witness :
    (match_color_run envC4 sampleColor 2).prev_color = (match_color_run envC4 sampleColor 1).prev_color ∧
    (match_color_run envC4 sampleColor 2).status = Status.running ∧
    (match_color_run envC4 sampleColor 3).status = Status.running := by
  have h := c4_transient_error_keeps_baseline envC4 sampleColor 1
    (by simp [envC4, baseEnv]) (by simp [envC4, baseEnv])
    (by simp [envC4, baseEnv]) (by simp [envC4, baseEnv])
    (by decide) (by decide)
  exact ⟨h.1, h.2.1, h.2.2.2.2⟩

/-- Invariant backing the one-shot claim: after a successful first iteration
with `continuous=False`, the stop event is set, exactly one call has been
made, and the worker is either about to observe the stop or already halted —
and this persists through every further step. -/
theorem one_shot_invariant (env : Env) (init : HSBK)
    (hc : env.continuous = false) (hs : env.sampleExc 0 = none) (hp : env.pushExc 0 = none) :
    ∀ m, (match_color_run env init (m + 1)).stopFlag = true ∧
         (match_color_run env init (m + 1)).calls.length = 1 ∧
         ((match_color_run env init (m + 1)).status = Status.running ∨
          (match_color_run env init (m + 1)).status = Status.halted) := by
  intro m
  induction m with
  | zero =>
    have h1 : match_color_run env init 1 =
        match_color_iter env 0 (match_color_run env init 0) := rfl
    rw [h1, match_color_iter_push env 0 _ rfl rfl hs hp]
    simp [hc, match_color_run]
  | succ m ih =>
    have h2 : match_color_run env init (m + 1 + 1) =
        match_color_iter env (m + 1) (match_color_run env init (m + 1)) := rfl
    obtain ⟨hf, hlen, hst⟩ := ih
    have ha := match_color_iter_after_stop env (m + 1) _ hf
    have hh := match_color_iter_halted env (m + 1) _ hf hst
    rw [h2]
    exact ⟨ha.1, by rw [ha.2.1]; exact hlen, Or.inr hh⟩

/-- C3: with `continuous=False` and a successful first iteration, the loop
makes exactly one `set_color` call, sets its own stop event immediately after
it, and is halted from the second step on — no matter how long it is allowed
to run. -/
theorem c3_one_shot_single_push (env : Env) (init : HSBK)
    (hc : env.continuous = false) (hs : env.sampleExc 0 = none) (hp : env.pushExc 0 = none) :
    ∀ m, (match_color_run env init (m + 1)).calls.length = 1 ∧
         (match_color_run env init (m + 1)).stopFlag = true ∧
         (match_color_run env init (m + 2)).status = Status.halted := by
  intro m
  obtain ⟨hf, hlen, hst⟩ := one_shot_invariant env init hc hs hp m
  have hstep : match_color_run env init (m + 2) =
      match_color_iter env (m + 1) (match_color_run env init (m + 1)) := rfl
  exact ⟨hlen, hf, by rw [hstep]; exact match_color_iter_halted env (m + 1) _ hf hst⟩

/-- Witness for C3: the concrete one-shot environment still has exactly one
push after five steps and is halted at step six. -/
theorem c3_one_shot_single_push_witness :
    (match_color_run envOneShot sampleColor 5).calls.length = 1 ∧
    (match_color_run envOneShot sampleColor 5).stopFlag = true ∧
    (match_color_run envOneShot sampleColor 6).status = Status.halted :=
  c3_one_shot_single_push envOneShot sampleColor rfl rfl rfl 4

/-- C5 (counterexample): the configured duration is 2 (seconds), but the
duration argument handed to `set_color` on the first iteration is
`2 * 1000` — the configured value scaled by 1000, not the unscaled value. -/
theorem c5_duration_counterexample :
    baseEnv.duration 0 = 2 ∧
    (match_color_run baseEnv sampleColor 1).calls.map PushCall.duration = [2 * 1000] ∧
    (2 : ℚ) * 1000 ≠ 2 :=
  ⟨rfl, by simp [match_color_run, match_color_iter, baseEnv], by norm_num⟩

/-- C5 (amended): on every successful iteration, the duration argument passed
to `device.set_color` equals the freshly read configured duration multiplied
by 1000 (milliseconds), and the rapid argument equals the loop's continuous
flag. -/
theorem c5_duration_milliseconds (env : Env) (i : Nat) (s : LoopState)
    (h1 : s.status = Status.running) (h2 : s.stopFlag = false)
    (h3 : env.sampleExc i = none) (h4 : env.pushExc i = none) :
    (match_color_iter env i s).calls.map PushCall.duration =
      s.calls.map PushCall.duration ++ [env.duration i * 1000] ∧
    (match_color_iter env i s).calls.map PushCall.rapid =
      s.calls.map PushCall.rapid ++ [env.continuous] := by
  rw [match_color_iter_push env i s h1 h2 h3 h4]
  simp

/-- Witness for C5 (amended): at a concrete state and environment the pushed
duration is the configured duration times 1000, and rapid is the continuous
flag. -/
theorem c5_duration_milliseconds_witness :
    (match_color_iter baseEnv 0 ⟨sampleColor, false, [], Status.running⟩).calls.map PushCall.duration =
      [baseEnv.duration 0 * 1000] ∧
    (match_color_iter baseEnv 0 ⟨sampleColor, false, [], Status.running⟩).calls.map PushCall.rapid =
      [baseEnv.continuous] :=
  c5_duration_milliseconds baseEnv 0 ⟨sampleColor, false, [], Status.running⟩ rfl rfl rfl rfl

/-- C6 (counterexample): editing the continuous flag in the configuration
between iteration 0 and iteration 1 has no effect: the code pushes with
`rapid=true` (the construction-time snapshot) on iteration 1 although the
configuration then says false, while the spec-side variant that re-reads the
flag each iteration pushes with `rapid=false` and stops. -/
theorem c6_continuous_snapshot_counterexample :
    envC6.continuousCfg 0 = true ∧ envC6.continuousCfg 1 = false ∧
    (match_color_run envC6 sampleColor 2).calls.map PushCall.rapid = [true, true] ∧
    (match_color_run_specCfg envC6 sampleColor 2).calls.map PushCall.rapid = [true, false] :=
  ⟨rfl, rfl, by decide, by decide⟩

/-- C6 (amended): duration and brightness offset are indeed read fresh from
the configuration on every iteration — the call of iteration `i` carries
`duration i * 1000` and a brightness clamped with `brightness_offset i` — but
the continuous flag is the construction-time snapshot `env.continuous`, not a
per-iteration read. -/
theorem c6_fresh_reads_except_continuous (env : Env) (i : Nat) (s : LoopState)
    (h1 : s.status = Status.running) (h2 : s.stopFlag = false)
    (h3 : env.sampleExc i = none) (h4 : env.pushExc i = none) :
    (match_color_iter env i s).calls.map PushCall.duration =
      s.calls.map PushCall.duration ++ [env.duration i * 1000] ∧
    (match_color_iter env i s).calls.map (fun cl => cl.color.bri) =
      s.calls.map (fun cl => cl.color.bri) ++
        [min ((env.color_function i s.prev_color).bri + env.brightness_offset i) 65535] ∧
    (match_color_iter env i s).calls.map PushCall.rapid =
      s.calls.map PushCall.rapid ++ [env.continuous] := by
  rw [match_color_iter_push env i s h1 h2 h3 h4]
  simp

/-- Witness for C6 (amended): concrete instance of the fresh-read shape of a
pushed call. -/
theorem c6_fresh_reads_except_continuous_witness :
    (match_color_iter baseEnv 3 ⟨sampleColor, false, [], Status.running⟩).calls.map PushCall.duration =
      [baseEnv.duration 3 * 1000] ∧
    (match_color_iter baseEnv 3 ⟨sampleColor, false, [], Status.running⟩).calls.map (fun cl => cl.color.bri) =
      [min ((baseEnv.color_function 3 sampleColor).bri + baseEnv.brightness_offset 3) 65535] ∧
    (match_color_iter baseEnv 3 ⟨sampleColor, false, [], Status.running⟩).calls.map PushCall.rapid =
      [baseEnv.continuous] :=
  c6_fresh_reads_except_continuous baseEnv 3 ⟨sampleColor, false, [], Status.running⟩ rfl rfl rfl rfl

/-- C7: the brightness pushed on a successful iteration equals
`min(sampled_brightness + offset, 65535)`, and therefore never exceeds the
maximum brightness 65535. -/
theorem c7_offset_clamp (env : Env) (i : Nat) (s : LoopState)
    (h1 : s.status = Status.running) (h2 : s.stopFlag = false)
    (h3 : env.sampleExc i = none) (h4 : env.pushExc i = none) :
    (match_color_iter env i s).calls.map (fun cl => cl.color.bri) =
      s.calls.map (fun cl => cl.color.bri) ++
        [min ((env.color_function i s.prev_color).bri + env.brightness_offset i) 65535] ∧
    min ((env.color_function i s.prev_color).bri + env.brightness_offset i) 65535 ≤ 65535 := by
  rw [match_color_iter_push env i s h1 h2 h3 h4]
  exact ⟨by simp, min_le_right _ _⟩

/-- Witness for C7: the concrete pushed brightness is the clamp of the sampled
brightness 300 plus the offset 10, and is at most 65535. -/
theorem c7_offset_clamp_witness :
    (match_color_iter baseEnv 0 ⟨sampleColor, false, [], Status.running⟩).calls.map (fun cl => cl.color.bri) =
      [min ((baseEnv.color_function 0 sampleColor).bri + baseEnv.brightness_offset 0) 65535] ∧
    min ((baseEnv.color_function 0 sampleColor).bri + baseEnv.brightness_offset 0) 65535 ≤ 65535 :=
  c7_offset_clamp baseEnv 0 ⟨sampleColor, false, [], Status.running⟩ rfl rfl rfl rfl

/-- C8: both sampling strategies return a color whose kelvin component equals
the kelvin component of `initial_color`: the conversion receives
`temperature=initial_color[3]` and passes it through unchanged (nonempty pixel
data for the dominant strategy, where numpy would raise on an empty image). -/
theorem c8_temperature_carry_forward (px p : RGB) (ps : List RGB) (initial_color : HSBK) :
    (avg_screen_color px initial_color).kel = initial_color.kel ∧
    (dominant_screen_color (p :: ps) initial_color).map HSBK.kel = some initial_color.kel := by
  constructor
  · exact RGBtoHSBK_kel px initial_color.kel
  · simp [dominant_screen_color, bincountArgmax, RGBtoHSBK_kel]

/-- C9: the offset adjustment clamps only at the upper bound 65535; with a
sampled brightness of 300 and a configured offset of −400 the brightness
passed to `device.set_color` is −100, which is negative. -/
theorem c9_no_lower_brightness_clamp :
    envC9.brightness_offset 0 = -400 ∧ sampleColor.bri = 300 ∧
    (match_color_run envC9 sampleColor 1).calls.map (fun cl => cl.color.bri) = [-100] ∧
    (-100 : Int) < 0 :=
  ⟨rfl, rfl, by decide, by decide⟩

/-- C10: in one-shot mode, a push that raises `OSError` skips the one-shot
stop (the `continue` jumps past it): after the failed iteration the stop
event is still clear and the worker still running; it pushes again on the
next iteration, so a one-shot run issues two `set_color` calls here, and only
after the successful second push is the stop event set. -/
theorem c10_oneshot_oserror_skips_stop (env : Env) (init : HSBK)
    (hc : env.continuous = false)
    (hs0 : env.sampleExc 0 = none) (hp0 : env.pushExc 0 = some Exc.osError)
    (hs1 : env.sampleExc 1 = none) (hp1 : env.pushExc 1 = none) :
    (match_color_run env init 1).calls.length = 1 ∧
    (match_color_run env init 1).stopFlag = false ∧
    (match_color_run env init 1).status = Status.running ∧
    (match_color_run env init 2).calls.length = 2 ∧
    (match_color_run env init 2).stopFlag = true := by
  have h1 : match_color_run env init 1 =
      match_color_iter env 0 (match_color_run env init 0) := rfl
  have h2 : match_color_run env init 2 =
      match_color_iter env 1 (match_color_run env init 1) := rfl
  rw [h2, h1, match_color_iter_oserror_push env 0 _ rfl rfl hs0 hp0,
    match_color_iter_push env 1 _ (by simp [match_color_run]) (by simp [match_color_run]) hs1 hp1]
  refine ⟨by simp [match_color_run], by simp [match_color_run], by simp [match_color_run],
    by simp [match_color_run], by simp [hc]⟩

/-- Witness for C10: the concrete one-shot environment with a push `OSError`
at iteration 0 makes a second call and stops only after it succeeds. -/
theorem c10_oneshot_oserror_skips_stop_witness :
    (match_color_run envC10 sampleColor 1).calls.length = 1 ∧
    (match_color_run envC10 sampleColor 1).stopFlag = false ∧
    (match_color_run envC10 sampleColor 1).status = Status.running ∧
    (match_color_run envC10 sampleColor 2).calls.length = 2 ∧
    (match_color_run envC10 sampleColor 2).stopFlag = true :=
  c10_oneshot_oserror_skips_stop envC10 sampleColor rfl rfl
    (by simp [envC10, envOneShot, baseEnv]) rfl (by simp [envC10, envOneShot, baseEnv])
